import Mathlib

/-!
Verification of the polling service (src/index.ts, src/services/polling.service.ts
and the config module bundled with it).

The service is embedded shallowly: JSON values, zod parse results and thrown
JavaScript exceptions are explicit data; each `async` method of `PollingService`
becomes a pure function from the service fields and an explicit world (the
outcomes of the two axios calls, the current clock strings, and the JS
truthiness of the payload type) to a trace of observable events (console lines
and webhook POST attempts) paired with an `Except` result, where `.error`
means the promise rejects past that method.
-/

namespace Polling

/-- JSON values as delivered by axios. Numbers are modelled as integers: every
numeric value appearing in this program (user counts, the poll interval) is an
integer, and fractional forms play no role in any claim. -/
inductive Json where
  | null
  | bool (b : Bool)
  | num (n : Int)
  | str (s : String)
  | arr (elems : List Json)
  | obj (fields : List (String × Json))

/-- One zod validation issue: the field path and the human-readable message. -/
structure Issue where
  path : List String
  message : String
deriving DecidableEq

/-- Result of `schema.safeParse`: a typed value or a list of issues.
`safeParse` never throws, matching the zod contract. -/
inductive ParseResult (T : Type) where
  | success (data : T)
  | failure (issues : List Issue)
deriving DecidableEq

/-- A thrown JavaScript exception, as far as this program inspects one:
`axios` errors optionally carry a response (status and body, read by the
`axios.isAxiosError(error) && error.response` branch of `fetchData`), any
other thrown value is kept as its string rendering. -/
inductive Exn where
  | axios (message : String) (response : Option (Nat × String))
  | other (message : String)
deriving DecidableEq

/-- The message extracted from a caught value
(`error instanceof Error ? error.message : String(error)`). -/
def Exn.message : Exn → String
  | .axios m _ => m
  | .other m => m

/-- Footer of a Discord embed. -/
structure Footer where
  text : String
deriving DecidableEq

/-- The embed built by `sendErrorToDiscord`. -/
structure ErrorEmbed where
  title : String
  color : Nat
  description : String
  footer : Footer
deriving DecidableEq

/-- The body POSTed by `sendErrorToDiscord`: an object holding the
single-embed list under the key embeds. -/
structure ErrorNotification where
  embeds : List ErrorEmbed
deriving DecidableEq

/-- Observable events of one run: console lines and webhook POST attempts.
`postSuccess` carries the body built by the template function, `postError`
the fixed-shape error notification. A POST attempt is recorded whether or
not the POST then succeeds. -/
inductive Event (U : Type) where
  | log (msg : String)
  | logError (msg : String)
  | postSuccess (body : U)
  | postError (body : ErrorNotification)

/-- Type `PollingConfig` from polling.service.ts. `interval` is a JS number;
it is an integer wherever this program constructs one. -/
structure PollingConfig where
  url : String
  interval : Int
  webhookUrl : String
deriving DecidableEq

/-- The constructor-supplied fields of `PollingService<T>`: the config, the
zod schema (as its `safeParse` function) and the template function. The
template function may throw, hence the `Except Exn` result; `U` is the type
of the webhook body it builds. -/
structure PollingService (T U : Type) where
  config : PollingConfig
  schema : Json → ParseResult T
  templateFn : T → String → Except Exn U

/-- The world one cycle runs against: the outcome of `axios.get` on the
source URL, the outcome of `axios.post` to the webhook (at most one POST
happens per cycle, so a single outcome suffices), the two clock renderings
(`format(now, yyyy-MM-dd HH:mm:ss)` and `new Date().toISOString()`), and
the JS truthiness of values of `T`, consulted by the `if (data)` check of
`runPolling` (constantly true for the object payloads of this program). -/
structure World (T : Type) where
  fetch : Except Exn Json
  post : Except Exn Unit
  timestamp : String
  nowIso : String
  truthy : T → Bool

/-- Rendering of one zod issue inside `ZodError.message`: the field path and
the message both appear in the text. -/
def renderIssue (i : Issue) : String :=
  String.intercalate "." i.path ++ ": " ++ i.message

/-- Models `ZodError.message`, the serialisation of the issue list that
`fetchData` interpolates into its error notification: a rendering in which
every field path and message of the issue list appears. -/
def zodErrorMessage (issues : List Issue) : String :=
  String.intercalate "; " (issues.map renderIssue)

/-- Method `sendErrorToDiscord(errorMessage)`: builds the fixed-shape embed
and POSTs the single-embed body to the webhook; a POST failure is caught
and only logged, so the method always resolves. -/
def sendErrorToDiscord (svc : PollingService T U) (w : World T)
    (errorMessage : String) : List (Event U) × Except Exn Unit :=
  match w.post with
  | .ok _ =>
      ([Event.postError ⟨[⟨"❌ Polling Error", 0xFF0000, errorMessage,
          ⟨"Polling • " ++ w.timestamp⟩⟩]⟩,
        Event.log "Error sent to Discord successfully"], .ok ())
  | .error e =>
      ([Event.postError ⟨[⟨"❌ Polling Error", 0xFF0000, errorMessage,
          ⟨"Polling • " ++ w.timestamp⟩⟩]⟩,
        Event.logError ("Error sending error to Discord: " ++ e.message)], .ok ())

/-- Method `sendToDiscord(data)`: builds the body via the template function and
POSTs it. Both a throw inside the template function and a POST failure are
caught by the surrounding try/catch and only logged, so the method always
resolves; when the template function throws, no POST attempt happens. -/
def sendToDiscord (svc : PollingService T U) (w : World T) (data : T) :
    List (Event U) × Except Exn Unit :=
  match svc.templateFn data w.timestamp with
  | .error e =>
      ([Event.logError ("Error sending to Discord: " ++ e.message)], .ok ())
  | .ok payload =>
      match w.post with
      | .ok _ =>
          ([Event.postSuccess payload,
            Event.log "Data sent to Discord successfully"], .ok ())
      | .error e =>
          ([Event.postSuccess payload,
            Event.logError ("Error sending to Discord: " ++ e.message)], .ok ())

/-- The try block of `fetchData`: GET the source URL, `safeParse` the body;
on validation failure log, send the error notification and return null.
An `.error` result is a throw that the catch block of `fetchData` receives. -/
def fetchDataTry (svc : PollingService T U) (w : World T) :
    List (Event U) × Except Exn (Option T) :=
  match w.fetch with
  | .error e =>
      ([Event.log ("Fetching data from: " ++ svc.config.url)], .error e)
  | .ok raw =>
      match svc.schema raw with
      | .success d =>
          ([Event.log ("Fetching data from: " ++ svc.config.url)], .ok (some d))
      | .failure issues =>
          match sendErrorToDiscord svc w
              ("Schema validation failed: " ++ zodErrorMessage issues) with
          | (tr, .ok _) =>
              (Event.log ("Fetching data from: " ++ svc.config.url) ::
               Event.logError ("Schema validation failed: " ++ zodErrorMessage issues) ::
               tr, .ok none)
          | (tr, .error e) =>
              (Event.log ("Fetching data from: " ++ svc.config.url) ::
               Event.logError ("Schema validation failed: " ++ zodErrorMessage issues) ::
               tr, .error e)

/-- The extra console lines of the catch block of `fetchData` when the caught
value is an axios error carrying a response. -/
def axiosResponseLogs (e : Exn) : List (Event U) :=
  match e with
  | .axios _ (some r) =>
      [Event.logError ("Status: " ++ toString r.1),
       Event.logError ("Data: " ++ r.2)]
  | _ => []

/-- Method `fetchData()`: the try block above with its catch block, which logs the
caught error, sends an error notification and returns null. The result is
`T | null`, modelled as `Option T`. -/
def fetchData (svc : PollingService T U) (w : World T) :
    List (Event U) × Except Exn (Option T) :=
  match fetchDataTry svc w with
  | (tr, .ok v) => (tr, .ok v)
  | (tr, .error e) =>
      match sendErrorToDiscord svc w ("Error fetching data: " ++ e.message) with
      | (tr2, .ok _) =>
          (tr ++ Event.logError ("Error fetching data: " ++ e.message) ::
           axiosResponseLogs e ++ tr2, .ok none)
      | (tr2, .error e2) =>
          (tr ++ Event.logError ("Error fetching data: " ++ e.message) ::
           axiosResponseLogs e ++ tr2, .error e2)

/-- Method `runPolling()`: one cycle. Awaits `fetchData`, then the JS truthiness
check `if (data)` decides between `sendToDiscord` and a console error.
There is no try/catch here, so a rejection of an awaited call would
propagate (the `.error` branches). -/
def runPolling (svc : PollingService T U) (w : World T) :
    List (Event U) × Except Exn Unit :=
  match fetchData svc w with
  | (tr, .error e) =>
      (Event.log ("Polling running at " ++ w.nowIso) :: tr, .error e)
  | (tr, .ok data) =>
      match data with
      | some d =>
          if w.truthy d then
            match sendToDiscord svc w d with
            | (tr2, r2) =>
                (Event.log ("Polling running at " ++ w.nowIso) :: tr ++
                 Event.log "Data received:" :: tr2, r2)
          else
            (Event.log ("Polling running at " ++ w.nowIso) :: tr ++
             [Event.logError "Failed to fetch valid data"], .ok ())
      | none =>
          (Event.log ("Polling running at " ++ w.nowIso) :: tr ++
           [Event.logError "Failed to fetch valid data"], .ok ())

/-- Bodies of the success POST attempts in a trace. -/
def successBodies (tr : List (Event U)) : List U :=
  tr.filterMap fun e =>
    match e with
    | .postSuccess b => some b
    | _ => none

/-- Bodies of the error POST attempts in a trace. -/
def errorBodies (tr : List (Event U)) : List ErrorNotification :=
  tr.filterMap fun e =>
    match e with
    | .postError b => some b
    | _ => none

/-- Number of success-notification delivery attempts in a trace. -/
def successCount (tr : List (Event U)) : Nat :=
  (successBodies tr).length

/-- Number of error-notification delivery attempts in a trace. -/
def errorCount (tr : List (Event U)) : Nat :=
  (errorBodies tr).length

/-- A node-cron `ScheduledTask` registered by `cron.schedule` with the
pattern `*/pattern * * * *` (only the minute field of the pattern ever
varies in this program). `running` is cleared by `task.stop()`. -/
structure ScheduledTask where
  pattern : Nat
  running : Bool
deriving DecidableEq

/-- Semantics of the minute-field step pattern `*/n`: the task fires at the
wall-clock minutes m of each hour with m % n = 0. `t` counts absolute
minutes, so the minute of the hour is t % 60. -/
def cronFires (n t : Nat) : Bool :=
  decide ((t % 60) % n = 0)

/-- Whether a registered task fires at absolute minute `t`. -/
def taskFires (task : ScheduledTask) (t : Nat) : Bool :=
  task.running && cronFires task.pattern t

/-- Models `cron.schedule` on the expression `*/interval * * * *`: node-cron
validates the pattern and throws on an invalid step (a non-positive
interval); a valid step registers a running task. -/
def cronSchedule (interval : Int) : Except Exn ScheduledTask :=
  if interval ≤ 0 then
    .error (.other ("Invalid cron expression: */" ++ toString interval ++ " * * * *"))
  else
    .ok ⟨interval.toNat, true⟩

/-- The mutable state of a `PollingService` instance: its `cronJob` field,
absent until `start()` assigns it. -/
structure ServiceState where
  cronJob : Option ScheduledTask
deriving DecidableEq

/-- Method `start()`: invokes `runPolling()` without awaiting it (its result is
discarded; its events are recorded in the trace, their interleaving with the
later events is not modelled), then registers the cron job and logs. An
`.error` result is a throw out of `cron.schedule`. -/
def start (svc : PollingService T U) (w : World T) (st : ServiceState) :
    (ServiceState × List (Event U)) × Except Exn Unit :=
  match runPolling svc w with
  | (tr, _) =>
      match cronSchedule svc.config.interval with
      | .ok task =>
          ((⟨some task⟩,
            tr ++ [Event.log ("Polling started! Monitoring every " ++
              toString svc.config.interval ++ " minutes...")]), .ok ())
      | .error e => ((st, tr), .error e)

/-- Method `stop()`: when a cron job was registered, calls `task.stop()` (which
clears the running flag and never throws) and logs; otherwise the guard
`if (this.cronJob)` makes it a no-op. The trace is the console lines. -/
def stop (st : ServiceState) : (ServiceState × List String) × Except Exn Unit :=
  match st.cronJob with
  | some task => ((⟨some ⟨task.pattern, false⟩⟩, ["Polling stopped"]), .ok ())
  | none => ((st, []), .ok ())

/-- Looks up a property of a JSON object. -/
def jsonLookup (fields : List (String × Json)) (name : String) : Option Json :=
  match fields.find? (fun p => p.1 == name) with
  | some p => some p.2
  | none => none

/-- Whether every character of a list is a decimal digit. -/
def allDigits : List Char → Bool
  | [] => true
  | c :: r => c.isDigit && allDigits r

/-- Value of a decimal digit list, most significant first. -/
def digitsValAux (acc : Nat) : List Char → Nat
  | [] => acc
  | c :: r => digitsValAux (acc * 10 + (c.toNat - 48)) r

/-- Digits-only decimal parser used to model JS string-to-number coercion. -/
def parseNatDigits (l : List Char) : Option Nat :=
  if !l.isEmpty && allDigits l then some (digitsValAux 0 l) else none

/-- Models JS `Number(s)` on the string inputs relevant here: the empty
string coerces to 0, an optional minus sign followed by decimal digits
parses as an integer, anything else gives NaN (`none`). Fractional,
exponent and hexadecimal forms are not modelled: such inputs never occur
in this program or its claims. -/
def parseJsNumber (s : String) : Option Int :=
  match s.toList with
  | [] => some 0
  | '-' :: rest =>
      match parseNatDigits rest with
      | some n => some (-(n : Int))
      | none => none
  | l =>
      match parseNatDigits l with
      | some n => some ((n : Int))
      | none => none

/-- Models JS `Number(v)` (the coercion applied by `z.coerce.number()`) on
primitive JSON values: numbers pass through, strings as in `parseJsNumber`,
booleans map to 1/0, null to 0; arrays and objects give NaN (`none`) —
faithful for everything but exotic single-element arrays, which never occur
here. -/
def jsToNumber : Json → Option Int
  | .num n => some n
  | .str s => parseJsNumber s
  | .bool true => some 1
  | .bool false => some 0
  | .null => some 0
  | _ => none

/-- The issues of a failed field parse, empty on success. -/
def issuesOf : Except (List Issue) α → List Issue
  | .error is => is
  | .ok _ => []

/-- Check `z.string()` on one property of an object: a missing property reports
Required, a non-string reports a type issue. -/
def parseStringField (fields : List (String × Json)) (name : String) :
    Except (List Issue) String :=
  match jsonLookup fields name with
  | some (.str s) => .ok s
  | some _ => .error [⟨[name], "Expected string, received other"⟩]
  | none => .error [⟨[name], "Required"⟩]

/-- Check `z.coerce.number()` on one property of an object: the value (undefined
when the property is missing) goes through JS `Number()` coercion, and NaN
reports a type issue. -/
def parseCoercedNumberField (fields : List (String × Json)) (name : String) :
    Except (List Issue) Int :=
  match jsonLookup fields name with
  | none => .error [⟨[name], "Expected number, received nan"⟩]
  | some j =>
      match jsToNumber j with
      | none => .error [⟨[name], "Expected number, received nan"⟩]
      | some n => .ok n

/-- The payload type of config.ts: `z.infer<typeof payloadSchema>`. -/
structure Payload where
  id : String
  daily_active_users : Int
  weekly_active_users : Int
  monthly_active_users : Int
deriving DecidableEq

/-- Function `payloadSchema.safeParse`: a zod object schema checks every property and
collects the issues of all failing ones. -/
def payloadSchema (j : Json) : ParseResult Payload :=
  match j with
  | .obj fields =>
      match parseStringField fields "id",
            parseCoercedNumberField fields "daily_active_users",
            parseCoercedNumberField fields "weekly_active_users",
            parseCoercedNumberField fields "monthly_active_users" with
      | .ok i, .ok d, .ok w, .ok m => .success ⟨i, d, w, m⟩
      | ri, rd, rw, rm =>
          .failure (issuesOf ri ++ issuesOf rd ++ issuesOf rw ++ issuesOf rm)
  | _ => .failure [⟨[], "Expected object, received other"⟩]

/-- The three environment variables read by `loadEnvs`, each possibly unset. -/
structure RawEnv where
  POLL_URL : Option String
  POLL_INTERVAL : Option String
  DISCORD_WEBHOOK_URL : Option String
deriving DecidableEq

/-- Whether every character of a list is alphabetic. -/
def allAlpha : List Char → Bool
  | [] => true
  | c :: r => c.isAlpha && allAlpha r

/-- Models the `z.string().url()` check (the WHATWG URL constructor),
restricted to the scheme://rest shape of every URL this program meets: a
nonempty alphabetic scheme, the literal separator, and a nonempty rest. -/
def isValidUrl (s : String) : Bool :=
  match s.splitOn "://" with
  | scheme :: rest :: _ => !scheme.isEmpty && allAlpha scheme.toList && !rest.isEmpty
  | _ => false

/-- Check `z.string().url()` on one environment variable. -/
def parseUrlField (name : String) (v : Option String) :
    Except (List Issue) String :=
  match v with
  | none => .error [⟨[name], "Required"⟩]
  | some s => if isValidUrl s then .ok s else .error [⟨[name], "Invalid url"⟩]

/-- Check `z.coerce.number().int().positive()` on POLL_INTERVAL: an unset variable
coerces (as `Number(undefined)`) to NaN, a non-numeric string likewise, and
a non-positive value fails the positivity check. Non-integer numerals are
subsumed under the NaN case (`parseJsNumber` parses integers only); either
way such a value yields an issue on this field, which is all any claim
uses. -/
def parseIntervalField (v : Option String) : Except (List Issue) Int :=
  match v with
  | none => .error [⟨["POLL_INTERVAL"], "Expected number, received nan"⟩]
  | some s =>
      match parseJsNumber s with
      | none => .error [⟨["POLL_INTERVAL"], "Expected number, received nan"⟩]
      | some n =>
          if n ≤ 0 then
            .error [⟨["POLL_INTERVAL"], "Number must be greater than 0"⟩]
          else
            .ok n

/-- The loaded environment, `z.infer<typeof EnvSchema>`. -/
structure Env where
  POLL_URL : String
  POLL_INTERVAL : Int
  DISCORD_WEBHOOK_URL : String
deriving DecidableEq

/-- Function `EnvSchema.safeParse` on the three variables: a zod object schema checks
every key and collects the issues of all failing ones. -/
def envSafeParse (r : RawEnv) : Except (List Issue) Env :=
  match parseUrlField "POLL_URL" r.POLL_URL,
        parseIntervalField r.POLL_INTERVAL,
        parseUrlField "DISCORD_WEBHOOK_URL" r.DISCORD_WEBHOOK_URL with
  | .ok u, .ok n, .ok w => .ok ⟨u, n, w⟩
  | ru, rn, rw => .error (issuesOf ru ++ issuesOf rn ++ issuesOf rw)

/-- Function `loadEnvs()`: validates the environment with `EnvSchema.safeParse`; on
failure it logs one line per issue (the path and message of every invalid
field) and throws. The thrown error together with its logged diagnostic is
modelled as the issue list. -/
def loadEnvs (r : RawEnv) : Except (List Issue) Env :=
  envSafeParse r

/-- Splits the reversed digit list of a number into groups of three,
starting from the least significant digit. -/
def chunk3 : List Char → List (List Char)
  | [] => []
  | [a] => [[a]]
  | [a, b] => [[a, b]]
  | a :: b :: c :: rest => [a, b, c] :: chunk3 rest

/-- Models `Number.prototype.toLocaleString` with the en-US locale on the
integers this program formats: decimal digits grouped in threes by commas. -/
def toLocaleStringEnUS (n : Int) : String :=
  (if n < 0 then "-" else "") ++
    String.intercalate ","
      (((chunk3 (toString n.natAbs).toList.reverse).map List.reverse).reverse.map
        (fun l => String.mk l))

/-- The `formatNumber` helper of `createDiscordMessage`. -/
def formatNumber (num : Int) : String :=
  toLocaleStringEnUS num

/-- One entry of the `fields` array of the success embed. -/
structure MetricsField where
  name : String
  value : String
  inline : Bool
deriving DecidableEq

/-- The embed built by `createDiscordMessage`. The thumbnail property is
present only when the THUMBNAIL environment variable is truthy. -/
structure MetricsEmbed where
  title : String
  color : Nat
  fields : List MetricsField
  thumbnail : Option String
  footer : Footer
  timestamp : String
deriving DecidableEq

/-- The webhook body built by `createDiscordMessage`. -/
structure DiscordMessage where
  embeds : List MetricsEmbed
deriving DecidableEq

/-- Function `createDiscordMessage(data, timestamp)` from index.ts. The ambient reads
(`process.env.THUMBNAIL` and `new Date().toISOString()`) are passed
explicitly; a thumbnail that is unset or empty (falsy) leaves the property
absent. -/
def createDiscordMessage (thumbnailVar : Option String) (nowIso : String)
    (data : Payload) (timestamp : String) : DiscordMessage :=
  { embeds := [{
      title := "📊 Active User Metrics",
      color := 0x3498DB,
      fields := [
        ⟨"Daily Active Users", "**" ++ formatNumber data.daily_active_users ++ "**", true⟩,
        ⟨"Weekly Active Users", "**" ++ formatNumber data.weekly_active_users ++ "**", true⟩,
        ⟨"Monthly Active Users", "**" ++ formatNumber data.monthly_active_users ++ "**", true⟩],
      thumbnail :=
        match thumbnailVar with
        | some s => if s.isEmpty then none else some s
        | none => none,
      footer := ⟨"📡 Metrics updated • " ++ timestamp⟩,
      timestamp := nowIso }] }

/-- The observable outcome of `main()` up to service start: either the
process exits with code 1 after the configuration diagnostic, or the
service is constructed with the loaded config and started. -/
inductive MainResult where
  | started (config : PollingConfig)
  | exited (code : Nat) (issues : List Issue)
deriving DecidableEq

/-- Function `main()` from index.ts, up to the `start()` call: a throw of `loadEnvs`
is caught and ends the process with exit code 1; otherwise the service is
constructed with the loaded values and started. -/
def main (r : RawEnv) : MainResult :=
  match loadEnvs r with
  | .error issues => .exited 1 issues
  | .ok env => .started ⟨env.POLL_URL, env.POLL_INTERVAL, env.DISCORD_WEBHOOK_URL⟩

/-- A concrete configuration of the shape `main` builds. -/
def exampleConfig : PollingConfig :=
  ⟨"https://example.com/metrics", 5, "https://discord.com/api/webhooks/1/token"⟩

/-- The service as `main` instantiates it: payload schema from config.ts and
the message template from index.ts (which never throws), with no THUMBNAIL
variable set. -/
def svcMain : PollingService Payload DiscordMessage :=
  { config := exampleConfig,
    schema := payloadSchema,
    templateFn := fun d ts =>
      .ok (createDiscordMessage none "2024-01-01T00:00:00.000Z" d ts) }

/-- The coercion scenario payload of the spec:
id u1, daily 1234 as a string, weekly 5000, monthly 20000. -/
def goodJson : Json :=
  .obj [("id", .str "u1"), ("daily_active_users", .str "1234"),
        ("weekly_active_users", .num 5000), ("monthly_active_users", .num 20000)]

/-- The missing-fields scenario payload of the spec: only the id. -/
def badJson : Json :=
  .obj [("id", .str "u1")]

/-- A world whose fetch returns the valid coercion-scenario payload. -/
def wGood : World Payload :=
  { fetch := .ok goodJson,
    post := .ok (),
    timestamp := "2024-01-01 00:00:00",
    nowIso := "2024-01-01T00:00:00.000Z",
    truthy := fun _ => true }

/-- A world whose fetch returns the invalid payload. -/
def wBad : World Payload :=
  { wGood with fetch := .ok badJson }

/-- A world whose fetch rejects with a transport error. -/
def wNet : World Payload :=
  { wGood with fetch := .error (.axios "Network Error" none) }

/-- The service with a poll interval of 7 minutes. -/
def svcSeven : PollingService Payload DiscordMessage :=
  { svcMain with config := { exampleConfig with interval := 7 } }

/-- The service with a poll interval of 1 minute. -/
def svcOne : PollingService Payload DiscordMessage :=
  { svcMain with config := { exampleConfig with interval := 1 } }

/-- A service whose template function throws, exercising the catch of
`sendToDiscord`. -/
def svcThrow : PollingService Payload DiscordMessage :=
  { svcMain with templateFn := fun _ _ => .error (.other "template blew up") }

/-- A world whose webhook POST rejects. -/
def wPostFail : World Payload :=
  { wGood with post := .error (.axios "Request failed with status code 404" none) }

section Lemmas

variable {T U : Type}

/-- Lemma: `sendErrorToDiscord` always resolves, attempts exactly one error POST
with the fixed-shape body, and attempts no success POST. -/
theorem sendError_spec (svc : PollingService T U) (w : World T) (m : String) :
    (sendErrorToDiscord svc w m).2 = Except.ok () ∧
    errorBodies (sendErrorToDiscord svc w m).1 =
      [⟨[⟨"❌ Polling Error", 0xFF0000, m, ⟨"Polling • " ++ w.timestamp⟩⟩]⟩] ∧
    successBodies (sendErrorToDiscord svc w m).1 = [] := by
  obtain ⟨f, p, ts, iso, tru⟩ := w
  cases p <;> simp [sendErrorToDiscord, errorBodies, successBodies]

/-- Lemma: `sendToDiscord` always resolves, attempts no error POST, and attempts
exactly one success POST carrying the template output unless the template
function throws, in which case it attempts none. -/
theorem sendSuccess_spec (svc : PollingService T U) (w : World T) (d : T) :
    (sendToDiscord svc w d).2 = Except.ok () ∧
    errorBodies (sendToDiscord svc w d).1 = [] ∧
    successBodies (sendToDiscord svc w d).1 =
      (match svc.templateFn d w.timestamp with
       | .ok p => [p]
       | .error _ => []) := by
  cases ht : svc.templateFn d w.timestamp with
  | error e => simp [sendToDiscord, ht, errorBodies, successBodies]
  | ok p =>
      cases hp : w.post <;>
        simp [sendToDiscord, ht, hp, errorBodies, successBodies]

/-- Lemma: `fetchData` always resolves; it returns the validated value exactly when
the fetch and the validation both succeed and null otherwise; it attempts no
success POST; and it attempts exactly one error POST on a transport or
validation failure and none on success. -/
theorem fetchData_spec (svc : PollingService T U) (w : World T) :
    (fetchData svc w).2 =
      Except.ok (match w.fetch with
        | .error _ => none
        | .ok raw =>
            match svc.schema raw with
            | .failure _ => none
            | .success d => some d) ∧
    successBodies (fetchData svc w).1 = [] ∧
    errorBodies (fetchData svc w).1 =
      (match w.fetch with
       | .error e =>
           [⟨[⟨"❌ Polling Error", 0xFF0000, "Error fetching data: " ++ e.message,
              ⟨"Polling • " ++ w.timestamp⟩⟩]⟩]
       | .ok raw =>
           match svc.schema raw with
           | .failure issues =>
               [⟨[⟨"❌ Polling Error", 0xFF0000,
                  "Schema validation failed: " ++ zodErrorMessage issues,
                  ⟨"Polling • " ++ w.timestamp⟩⟩]⟩]
           | .success _ => []) := by
  obtain ⟨f, p, ts, iso, tru⟩ := w
  cases f with
  | error e =>
      cases p <;>
        simp [fetchData, fetchDataTry, sendErrorToDiscord, errorBodies,
          successBodies, axiosResponseLogs] <;>
        cases e <;> rename_i a b <;> try cases b
      all_goals simp [axiosResponseLogs]
  | ok raw =>
      cases hs : svc.schema raw with
      | success d =>
          simp [fetchData, fetchDataTry, hs, errorBodies, successBodies]
      | failure issues =>
          cases p <;>
            simp [fetchData, fetchDataTry, hs, sendErrorToDiscord,
              errorBodies, successBodies]

/-- One cycle always resolves; its success POSTs are exactly the template
output when fetch, validation, the truthiness check and the template all
succeed; its error POSTs are exactly one fixed-shape notification on a
transport or validation failure. -/
theorem runPolling_spec (svc : PollingService T U) (w : World T) :
    (runPolling svc w).2 = Except.ok () ∧
    successBodies (runPolling svc w).1 =
      (match w.fetch with
       | .error _ => []
       | .ok raw =>
           match svc.schema raw with
           | .failure _ => []
           | .success d =>
               if w.truthy d then
                 match svc.templateFn d w.timestamp with
                 | .ok p => [p]
                 | .error _ => []
               else []) ∧
    errorBodies (runPolling svc w).1 =
      (match w.fetch with
       | .error e =>
           [⟨[⟨"❌ Polling Error", 0xFF0000, "Error fetching data: " ++ e.message,
              ⟨"Polling • " ++ w.timestamp⟩⟩]⟩]
       | .ok raw =>
           match svc.schema raw with
           | .failure issues =>
               [⟨[⟨"❌ Polling Error", 0xFF0000,
                  "Schema validation failed: " ++ zodErrorMessage issues,
                  ⟨"Polling • " ++ w.timestamp⟩⟩]⟩]
           | .success _ => []) := by
  obtain ⟨f, p, ts, iso, tru⟩ := w
  cases f with
  | error e =>
      cases p <;>
        simp [runPolling, fetchData, fetchDataTry, sendErrorToDiscord,
          errorBodies, successBodies, axiosResponseLogs] <;>
        cases e <;> rename_i a b <;> try cases b
      all_goals simp [axiosResponseLogs]
  | ok raw =>
      cases hs : svc.schema raw with
      | failure issues =>
          cases p <;>
            simp [runPolling, fetchData, fetchDataTry, hs, sendErrorToDiscord,
              errorBodies, successBodies]
      | success d =>
          by_cases htr : tru d
          · cases ht : svc.templateFn d ts with
            | ok pay =>
                cases p <;>
                  simp [runPolling, fetchData, fetchDataTry, hs, sendToDiscord,
                    ht, htr, errorBodies, successBodies]
            | error e =>
                simp [runPolling, fetchData, fetchDataTry, hs, sendToDiscord,
                  ht, htr, errorBodies, successBodies]
          · simp [runPolling, fetchData, fetchDataTry, hs, htr,
              errorBodies, successBodies]

/-- Whether an environment value passes the url check of `EnvSchema`. -/
def urlOk : Option String → Bool
  | none => false
  | some s => isValidUrl s

/-- Whether an environment value passes the interval check of `EnvSchema`. -/
def intervalOk : Option String → Bool
  | none => false
  | some s =>
      match parseJsNumber s with
      | none => false
      | some n => decide (0 < n)

/-- The string a passing url field parses to. -/
def urlVal : Option String → String
  | none => ""
  | some s => s

/-- The number a passing interval field parses to. -/
def intervalVal : Option String → Int
  | none => 0
  | some s => (parseJsNumber s).getD 0

/-- The issue message a failing url field reports. -/
def urlErrMsg : Option String → String
  | none => "Required"
  | some _ => "Invalid url"

/-- The issue message a failing interval field reports. -/
def intervalErrMsg : Option String → String
  | none => "Expected number, received nan"
  | some s =>
      match parseJsNumber s with
      | none => "Expected number, received nan"
      | some _ => "Number must be greater than 0"

theorem parseUrlField_of_true (name : String) (v : Option String)
    (h : urlOk v = true) : parseUrlField name v = .ok (urlVal v) := by
  cases v with
  | none => simp [urlOk] at h
  | some s =>
      simp [urlOk] at h
      simp [parseUrlField, urlVal, h]

theorem parseUrlField_of_false (name : String) (v : Option String)
    (h : urlOk v = false) :
    parseUrlField name v = .error [⟨[name], urlErrMsg v⟩] := by
  cases v with
  | none => rfl
  | some s =>
      simp [urlOk] at h
      simp [parseUrlField, urlErrMsg, h]

theorem parseIntervalField_of_true (v : Option String)
    (h : intervalOk v = true) : parseIntervalField v = .ok (intervalVal v) := by
  cases v with
  | none => simp [intervalOk] at h
  | some s =>
      cases hn : parseJsNumber s with
      | none => simp [intervalOk, hn] at h
      | some n =>
          simp [intervalOk, hn] at h
          simp [parseIntervalField, intervalVal, hn]
          omega

theorem parseIntervalField_of_false (v : Option String)
    (h : intervalOk v = false) :
    parseIntervalField v = .error [⟨["POLL_INTERVAL"], intervalErrMsg v⟩] := by
  cases v with
  | none => rfl
  | some s =>
      cases hn : parseJsNumber s with
      | none => simp [parseIntervalField, intervalErrMsg, hn]
      | some n =>
          simp [intervalOk, hn] at h
          simp [parseIntervalField, intervalErrMsg, hn]
          omega

end Lemmas

/-- The diagnostic carried by an exit outcome of `main`. -/
def mainDiagnostic : MainResult → List Issue
  | .exited _ issues => issues
  | .started _ => []

/-- C1: every invocation of `runPolling` makes exactly one notification
delivery attempt to the webhook — one success POST when fetch and schema
validation succeed, one error POST when either fails, never neither and
never both. Stated under the two facts true of the instantiation
in this program: the validated payloads are JS objects, hence truthy, and the
template function `createDiscordMessage` never throws. -/
theorem runPolling_exactly_one_delivery {T U : Type}
    (svc : PollingService T U) (w : World T)
    (htruthy : ∀ d, w.truthy d = true)
    (htmpl : ∀ d ts, ∃ p, svc.templateFn d ts = Except.ok p) :
    (∀ raw d, w.fetch = .ok raw → svc.schema raw = .success d →
        successCount (runPolling svc w).1 = 1 ∧
        errorCount (runPolling svc w).1 = 0) ∧
    (∀ raw issues, w.fetch = .ok raw → svc.schema raw = .failure issues →
        successCount (runPolling svc w).1 = 0 ∧
        errorCount (runPolling svc w).1 = 1) ∧
    (∀ e, w.fetch = .error e →
        successCount (runPolling svc w).1 = 0 ∧
        errorCount (runPolling svc w).1 = 1) := by
  obtain ⟨_, hs, he⟩ := runPolling_spec svc w
  refine ⟨?_, ?_, ?_⟩
  · intro raw d hf hsch
    obtain ⟨p, hp⟩ := htmpl d w.timestamp
    simp only [hf, hsch, htruthy d, hp] at hs he
    simp [successCount, errorCount, hs, he]
  · intro raw issues hf hsch
    simp only [hf, hsch] at hs he
    simp [successCount, errorCount, hs, he]
  · intro e hf
    simp only [hf] at hs he
    simp [successCount, errorCount, hs, he]

/-- Witness for C1 at the concrete instantiation of this program: the
payload schema and message template of index.ts, a fetch returning the
valid coercion-scenario payload. -/
theorem runPolling_exactly_one_delivery_witness :
    successCount (runPolling svcMain wGood).1 = 1 ∧
    errorCount (runPolling svcMain wGood).1 = 0 :=
  (runPolling_exactly_one_delivery svcMain wGood (fun _ => rfl)
    (fun d ts => ⟨createDiscordMessage none "2024-01-01T00:00:00.000Z" d ts, rfl⟩)).1
    goodJson ⟨"u1", 1234, 5000, 20000⟩ rfl rfl

/-- C2 counterexample: the claim says the caller of `fetchData` receives a
tagged result distinguishing the validated value, a FetchError and a
ValidationError. In the code `fetchData` returns `T | null`: at a concrete
transport failure (a rejected GET) and at a concrete validation failure
(the payload missing every metric field) the caller receives the very same
value, null — the two error kinds are not distinguished in the result. -/
theorem fetchData_result_untagged_counterexample :
    wNet.fetch = Except.error (.axios "Network Error" none) ∧
    wBad.fetch = Except.ok badJson ∧
    payloadSchema badJson = .failure
      [⟨["daily_active_users"], "Expected number, received nan"⟩,
       ⟨["weekly_active_users"], "Expected number, received nan"⟩,
       ⟨["monthly_active_users"], "Expected number, received nan"⟩] ∧
    (fetchData svcMain wNet).2 = Except.ok none ∧
    (fetchData svcMain wBad).2 = Except.ok none ∧
    (fetchData svcMain wNet).2 = (fetchData svcMain wBad).2 :=
  ⟨rfl, rfl, rfl, rfl, rfl, rfl⟩

/-- C2 (amended): `fetchData` never throws or rejects past its boundary;
the caller receives a two-case result — the validated typed value exactly
when the fetch and the schema validation both succeed, and null after
either failure kind (the two error kinds are reported in the error
notification, not distinguished in the returned value). -/
theorem fetchData_never_throws_two_case {T U : Type}
    (svc : PollingService T U) (w : World T) :
    (fetchData svc w).2 =
      Except.ok (match w.fetch with
        | .error _ => none
        | .ok raw =>
            match svc.schema raw with
            | .failure _ => none
            | .success d => some d) :=
  (fetchData_spec svc w).1

/-- Witness for the amended C2 at a successful fetch of the valid payload:
the caller receives the validated typed value. -/
theorem fetchData_never_throws_two_case_witness :
    (fetchData svcMain wGood).2 =
      Except.ok (some ⟨"u1", 1234, 5000, 20000⟩) :=
  fetchData_never_throws_two_case svcMain wGood

/-- C3: `runPolling` never throws outward, for any combination of fetch,
validation, transform and delivery outcomes; and every failure at the fetch
or validation stage is converted into exactly one error-notification
delivery attempt rather than propagated. -/
theorem runPolling_never_throws {T U : Type}
    (svc : PollingService T U) (w : World T) :
    (runPolling svc w).2 = Except.ok () ∧
    (∀ e, w.fetch = .error e → errorCount (runPolling svc w).1 = 1) ∧
    (∀ raw issues, w.fetch = .ok raw → svc.schema raw = .failure issues →
        errorCount (runPolling svc w).1 = 1) := by
  obtain ⟨hr, _, he⟩ := runPolling_spec svc w
  refine ⟨hr, ?_, ?_⟩
  · intro e hf
    simp only [hf] at he
    simp [errorCount, he]
  · intro raw issues hf hsch
    simp only [hf, hsch] at he
    simp [errorCount, he]

/-- Witness for C3: one cycle at a rejected fetch resolves and attempts
exactly one error delivery. -/
theorem runPolling_never_throws_witness :
    (runPolling svcMain wNet).2 = Except.ok () ∧
    errorCount (runPolling svcMain wNet).1 = 1 :=
  ⟨(runPolling_never_throws svcMain wNet).1,
   (runPolling_never_throws svcMain wNet).2.1 (.axios "Network Error" none) rfl⟩

/-- C4 counterexample: with intervalMinutes = 7 (a positive integer that
does not divide 60), the registered trigger fires at minutes 49 and 56 of
the hour and then next at minute 60 — a 4-minute gap — so it does not
invoke the cycle approximately every 7 minutes. -/
theorem start_interval_seven_counterexample :
    (start svcSeven wGood ⟨none⟩).1.1 = ⟨some ⟨7, true⟩⟩ ∧
    taskFires ⟨7, true⟩ 49 = true ∧
    taskFires ⟨7, true⟩ 56 = true ∧
    taskFires ⟨7, true⟩ 57 = false ∧
    taskFires ⟨7, true⟩ 58 = false ∧
    taskFires ⟨7, true⟩ 59 = false ∧
    taskFires ⟨7, true⟩ 60 = true ∧
    (60 - 56 : Nat) = 4 :=
  ⟨rfl, by decide, by decide, by decide, by decide, by decide, by decide,
   by decide⟩

/-- C4 (amended): for every positive integer interval, `start()` triggers
exactly one immediate unawaited poll cycle (the trace is the events of that cycle
 followed by the start log), registers a running cron task whose
minute-field step is the interval, returns nothing and never throws. The
registered trigger fires at the wall-clock minutes of each hour divisible
by the interval; that is exactly every interval minutes when the interval
divides 60, and otherwise the gap at the hour boundary differs from the
interval. -/
theorem start_schedules_cron {T U : Type}
    (svc : PollingService T U) (w : World T) (st : ServiceState)
    (h : 0 < svc.config.interval) :
    (start svc w st).2 = Except.ok () ∧
    (start svc w st).1.1 = ⟨some ⟨svc.config.interval.toNat, true⟩⟩ ∧
    (start svc w st).1.2 =
      (runPolling svc w).1 ++
        [Event.log ("Polling started! Monitoring every " ++
          toString svc.config.interval ++ " minutes...")] ∧
    (∀ t, taskFires ⟨svc.config.interval.toNat, true⟩ t =
        cronFires svc.config.interval.toNat t) ∧
    (svc.config.interval.toNat ∣ 60 →
      ∀ t, cronFires svc.config.interval.toNat t =
        decide (t % svc.config.interval.toNat = 0)) := by
  have hns : ¬ svc.config.interval ≤ 0 := by omega
  rcases hrp : runPolling svc w with ⟨tr, res⟩
  refine ⟨?_, ?_, ?_, ?_, ?_⟩
  · simp [start, hrp, cronSchedule, hns]
  · simp [start, hrp, cronSchedule, hns]
  · simp [start, hrp, cronSchedule, hns]
  · intro t
    simp [taskFires]
  · intro hdvd t
    simp [cronFires, Nat.mod_mod_of_dvd t hdvd]

/-- Witness for the amended C4: with interval 1 (which divides 60),
`start()` resolves, registers the step-1 task, and the trigger fires at
every one of the first three minutes. -/
theorem start_schedules_cron_witness :
    (start svcOne wGood ⟨none⟩).2 = Except.ok () ∧
    (start svcOne wGood ⟨none⟩).1.1 = ⟨some ⟨1, true⟩⟩ ∧
    cronFires 1 0 = true ∧ cronFires 1 1 = true ∧ cronFires 1 2 = true := by
  have h := start_schedules_cron svcOne wGood ⟨none⟩ (by decide)
  refine ⟨h.1, h.2.1, ?_, ?_, ?_⟩ <;>
    exact (h.2.2.2.2 ⟨60, rfl⟩ _).trans (by decide)

/-- C5: `stop()` cancels the recurring trigger when one is registered —
the running flag of the registered task is cleared, after which the task
fires at no minute; before any `start()` (no cron job registered) it is a
no-op; it never throws; and calling it twice in a row is idempotent — no
throw the second time and the same final state as calling it once. -/
theorem stop_idempotent_noop (st : ServiceState) :
    (stop st).2 = Except.ok () ∧
    (stop ⟨none⟩).1.1 = ⟨none⟩ ∧
    (stop ⟨none⟩).2 = Except.ok () ∧
    (∀ task, st.cronJob = some task →
      (stop st).1.1 = ⟨some ⟨task.pattern, false⟩⟩ ∧
      ∀ t, taskFires ⟨task.pattern, false⟩ t = false) ∧
    (stop (stop st).1.1).1.1 = (stop st).1.1 ∧
    (stop (stop st).1.1).2 = Except.ok () := by
  obtain ⟨j⟩ := st
  cases j <;> simp [stop, taskFires]

/-- Witness for C5 at a registered cron job: the stop resolves, cancels
the running step-5 task (which then fires at no minute, in particular not
at minute 0 where it fired while running), and the second stop resolves
and leaves the state of the first. -/
theorem stop_idempotent_noop_witness :
    (stop ⟨some ⟨5, true⟩⟩).2 = Except.ok () ∧
    (stop ⟨some ⟨5, true⟩⟩).1.1 = ⟨some ⟨5, false⟩⟩ ∧
    taskFires ⟨5, false⟩ 0 = false ∧
    (stop (stop ⟨some ⟨5, true⟩⟩).1.1).1.1 = (stop ⟨some ⟨5, true⟩⟩).1.1 ∧
    (stop (stop ⟨some ⟨5, true⟩⟩).1.1).2 = Except.ok () :=
  ⟨(stop_idempotent_noop ⟨some ⟨5, true⟩⟩).1,
   ((stop_idempotent_noop ⟨some ⟨5, true⟩⟩).2.2.2.1 ⟨5, true⟩ rfl).1,
   ((stop_idempotent_noop ⟨some ⟨5, true⟩⟩).2.2.2.1 ⟨5, true⟩ rfl).2 0,
   (stop_idempotent_noop ⟨some ⟨5, true⟩⟩).2.2.2.2.1,
   (stop_idempotent_noop ⟨some ⟨5, true⟩⟩).2.2.2.2.2⟩

/-- C6: for every payload that fails schema validation, one cycle makes
zero success deliveries and exactly one error delivery, whose message is
the fixed prefix followed by the failure text of the validator — the rendered
field-path and message pairs of the issues of the schema — so the notification
contains that text. -/
theorem validation_failure_one_error {T U : Type}
    (svc : PollingService T U) (w : World T) (raw : Json) (issues : List Issue)
    (hf : w.fetch = .ok raw) (hs : svc.schema raw = .failure issues) :
    successCount (runPolling svc w).1 = 0 ∧
    errorBodies (runPolling svc w).1 =
      [⟨[⟨"❌ Polling Error", 0xFF0000,
         "Schema validation failed: " ++ zodErrorMessage issues,
         ⟨"Polling • " ++ w.timestamp⟩⟩]⟩] := by
  obtain ⟨_, hsb, heb⟩ := runPolling_spec svc w
  simp only [hf, hs] at hsb heb
  exact ⟨by simp [successCount, hsb], heb⟩

/-- Witness for C6 at the missing-fields scenario payload: the cycle makes
no success delivery and one error delivery naming the three missing metric
fields. -/
theorem validation_failure_one_error_witness :
    successCount (runPolling svcMain wBad).1 = 0 ∧
    errorBodies (runPolling svcMain wBad).1 =
      [⟨[⟨"❌ Polling Error", 0xFF0000,
         "Schema validation failed: " ++ zodErrorMessage
           [⟨["daily_active_users"], "Expected number, received nan"⟩,
            ⟨["weekly_active_users"], "Expected number, received nan"⟩,
            ⟨["monthly_active_users"], "Expected number, received nan"⟩],
         ⟨"Polling • 2024-01-01 00:00:00"⟩⟩]⟩] :=
  validation_failure_one_error svcMain wBad badJson
    [⟨["daily_active_users"], "Expected number, received nan"⟩,
     ⟨["weekly_active_users"], "Expected number, received nan"⟩,
     ⟨["monthly_active_users"], "Expected number, received nan"⟩] rfl rfl

/-- C7: for every error message, the notification POSTed by
`sendErrorToDiscord` has exactly the fixed shape — one embed titled
"❌ Polling Error", red color 0xFF0000, the message as the description, and
the footer "Polling • timestamp". -/
theorem sendError_fixed_shape {T U : Type}
    (svc : PollingService T U) (w : World T) (m : String) :
    errorBodies (sendErrorToDiscord svc w m).1 =
      [⟨[⟨"❌ Polling Error", 0xFF0000, m, ⟨"Polling • " ++ w.timestamp⟩⟩]⟩] :=
  (sendError_spec svc w m).2.1

/-- Witness for C7 at a concrete message and world. -/
theorem sendError_fixed_shape_witness :
    errorBodies (sendErrorToDiscord svcMain wGood "source down").1 =
      [⟨[⟨"❌ Polling Error", 0xFF0000, "source down",
         ⟨"Polling • 2024-01-01 00:00:00"⟩⟩]⟩] :=
  sendError_fixed_shape svcMain wGood "source down"

/-- C8: whenever any of the three required configuration values is missing
or invalid, configuration loading fails, `main` exits with code 1 without
starting the service, and the diagnostic contains an issue naming every
invalid field, not only the first. -/
theorem config_failure_lists_every_field (r : RawEnv)
    (h : urlOk r.POLL_URL = false ∨ intervalOk r.POLL_INTERVAL = false ∨
      urlOk r.DISCORD_WEBHOOK_URL = false) :
    main r = .exited 1 (mainDiagnostic (main r)) ∧
    (urlOk r.POLL_URL = false →
      (⟨["POLL_URL"], urlErrMsg r.POLL_URL⟩ : Issue) ∈ mainDiagnostic (main r)) ∧
    (intervalOk r.POLL_INTERVAL = false →
      (⟨["POLL_INTERVAL"], intervalErrMsg r.POLL_INTERVAL⟩ : Issue) ∈
        mainDiagnostic (main r)) ∧
    (urlOk r.DISCORD_WEBHOOK_URL = false →
      (⟨["DISCORD_WEBHOOK_URL"], urlErrMsg r.DISCORD_WEBHOOK_URL⟩ : Issue) ∈
        mainDiagnostic (main r)) := by
  cases h1 : urlOk r.POLL_URL <;>
    cases h2 : intervalOk r.POLL_INTERVAL <;>
    cases h3 : urlOk r.DISCORD_WEBHOOK_URL <;>
    simp_all [main, loadEnvs, envSafeParse,
      parseUrlField_of_false, parseUrlField_of_true,
      parseIntervalField_of_false, parseIntervalField_of_true,
      issuesOf, mainDiagnostic]

/-- Witness for C8 with all three variables unset: the process exits with
code 1 and the diagnostic names all three fields. -/
theorem config_failure_lists_every_field_witness :
    main ⟨none, none, none⟩ =
      .exited 1 (mainDiagnostic (main ⟨none, none, none⟩)) ∧
    (⟨["POLL_URL"], "Required"⟩ : Issue) ∈
      mainDiagnostic (main ⟨none, none, none⟩) ∧
    (⟨["POLL_INTERVAL"], "Expected number, received nan"⟩ : Issue) ∈
      mainDiagnostic (main ⟨none, none, none⟩) ∧
    (⟨["DISCORD_WEBHOOK_URL"], "Required"⟩ : Issue) ∈
      mainDiagnostic (main ⟨none, none, none⟩) :=
  ⟨(config_failure_lists_every_field ⟨none, none, none⟩ (Or.inl rfl)).1,
   (config_failure_lists_every_field ⟨none, none, none⟩ (Or.inl rfl)).2.1 rfl,
   (config_failure_lists_every_field ⟨none, none, none⟩ (Or.inl rfl)).2.2.1 rfl,
   (config_failure_lists_every_field ⟨none, none, none⟩ (Or.inl rfl)).2.2.2 rfl⟩

/-- C9: the coercion scenario — the fetched payload carries the daily count
1234 as a string; schema validation succeeds by coercing it, and the
delivered success notification has three fields that show the values with en-US
thousands separators: 1,234 and 5,000 and 20,000. -/
theorem coercion_scenario_formats :
    payloadSchema goodJson =
      ParseResult.success ⟨"u1", 1234, 5000, 20000⟩ ∧
    successBodies (runPolling svcMain wGood).1 =
      [createDiscordMessage none "2024-01-01T00:00:00.000Z"
        ⟨"u1", 1234, 5000, 20000⟩ "2024-01-01 00:00:00"] ∧
    (successBodies (runPolling svcMain wGood).1).map
        (fun m => m.embeds.map (fun e => e.fields.map (fun f => f.value))) =
      [[["**1,234**", "**5,000**", "**20,000**"]]] ∧
    errorCount (runPolling svcMain wGood).1 = 0 :=
  ⟨rfl, rfl, rfl, rfl⟩

/-- C10: neither delivery operation ever rejects — for every template and
POST outcome both `sendToDiscord` and `sendErrorToDiscord` resolve; and a
throw inside the caller-supplied template function is caught before any
POST attempt, leaving only a console error. -/
theorem deliveries_never_reject {T U : Type}
    (svc : PollingService T U) (w : World T) (d : T) (m : String) :
    (sendToDiscord svc w d).2 = Except.ok () ∧
    (sendErrorToDiscord svc w m).2 = Except.ok () ∧
    (∀ e, svc.templateFn d w.timestamp = .error e →
        (sendToDiscord svc w d).1 =
          [Event.logError ("Error sending to Discord: " ++ e.message)]) := by
  refine ⟨(sendSuccess_spec svc w d).1, (sendError_spec svc w m).1, ?_⟩
  intro e ht
  simp [sendToDiscord, ht]

/-- Witness for C10 at a world whose POST rejects and a service whose
template function throws: both delivery operations still resolve, and the
throwing template leaves only a console error. -/
theorem deliveries_never_reject_witness :
    (sendToDiscord svcThrow wPostFail ⟨"u1", 1, 2, 3⟩).2 = Except.ok () ∧
    (sendErrorToDiscord svcThrow wPostFail "boom").2 = Except.ok () ∧
    (sendToDiscord svcThrow wPostFail ⟨"u1", 1, 2, 3⟩).1 =
      [Event.logError "Error sending to Discord: template blew up"] :=
  ⟨(deliveries_never_reject svcThrow wPostFail ⟨"u1", 1, 2, 3⟩ "boom").1,
   (deliveries_never_reject svcThrow wPostFail ⟨"u1", 1, 2, 3⟩ "boom").2.1,
   (deliveries_never_reject svcThrow wPostFail ⟨"u1", 1, 2, 3⟩ "boom").2.2
     (.other "template blew up") rfl⟩

end Polling



